import Mathlib

/-
Verification of the DORA metrics engine (src/DORA/dora_metrics.py and
src/DORA/dora_metrics_integrated.py) against its specification.

Modelling conventions:
- Python dict/str/int/None values that flow through the calculators are
  embedded as the inductive type `PyVal`; `dict.get(key, default)` on a
  non-dict raises AttributeError in Python, embedded as `Except.error`.
- Python float arithmetic is idealised as exact rational arithmetic (ℚ);
  Python's `round(x, 1)` (banker's rounding) is `round1`.
- The external `dateutil.parser.parse` library (not part of this
  repository) is modelled as a strict ISO-8601 parser for the format
  `YYYY-MM-DDTHH:MM:SS`; any other value is unparseable.
- A missing dictionary key in a result is modelled with `Option`
  (`Option.none` = the key is absent from the returned dict).
-/

namespace DORA

/-- Embedded Python value: None, str, int, or dict (association list). -/
inductive PyVal where
  | vnone : PyVal
  | vstr : String → PyVal
  | vint : Int → PyVal
  | vdict : List (String × PyVal) → PyVal

/-- Python truthiness for the embedded values. -/
def truthy : PyVal → Bool
  | .vnone => false
  | .vstr s => !s.isEmpty
  | .vint n => n != 0
  | .vdict es => !es.isEmpty

/-- Python `v.get(k, dflt)`: defined on dicts, raises AttributeError otherwise. -/
def pyGet (v : PyVal) (k : String) (dflt : PyVal) : Except String PyVal :=
  match v with
  | .vdict es => .ok ((es.lookup k).getD dflt)
  | _ => .error "AttributeError"

/-- Calendar date, as produced by Python `datetime.date()`. -/
structure PyDate where
  year : Nat
  month : Nat
  day : Nat
deriving DecidableEq, Repr

/-- Parsed timestamp (naive datetime). -/
structure PyDateTime where
  date : PyDate
  hour : Nat
  minute : Nat
  second : Nat
deriving DecidableEq, Repr

/-- Days since the Unix epoch for a civil date (standard civil-from-days inverse). -/
def daysFromCivil (y m d : Int) : Int :=
  let y2 := if m ≤ 2 then y - 1 else y
  let era := (if 0 ≤ y2 then y2 else y2 - 399) / 400
  let yoe := y2 - 400 * era
  let mp := (m + 9) % 12
  let doy := (153 * mp + 2) / 5 + d - 1
  let doe := yoe * 365 + yoe / 4 - yoe / 100 + doy
  era * 146097 + doe - 719468

/-- Seconds since the Unix epoch; datetime subtraction is subtraction of these. -/
def toSec (t : PyDateTime) : Int :=
  daysFromCivil (t.date.year : Int) (t.date.month : Int) (t.date.day : Int) * 86400
    + (t.hour : Int) * 3600 + (t.minute : Int) * 60 + (t.second : Int)

/-- Numeric value of a decimal digit character. -/
def digitVal (c : Char) : Option Nat :=
  if c.isDigit then some (c.toNat - 48) else Option.none

/-- Two-digit decimal number from two characters. -/
def parse2 (a b : Char) : Option Nat := do
  let x ← digitVal a
  let y ← digitVal b
  pure (10 * x + y)

/-- Four-digit decimal number from four characters. -/
def parse4 (a b c d : Char) : Option Nat := do
  let x ← parse2 a b
  let y ← parse2 c d
  pure (100 * x + y)

/-- Model of the external `dateutil.parser.parse` (the library is not part of
this repository): accepts exactly `YYYY-MM-DDTHH:MM:SS`; `Option.none` models a
parse exception. -/
def parseDate (s : String) : Option PyDateTime :=
  match s.toList with
  | [y1, y2, y3, y4, '-', m1, m2, '-', d1, d2, 'T', h1, h2, ':', n1, n2, ':', s1, s2] => do
      let y ← parse4 y1 y2 y3 y4
      let mo ← parse2 m1 m2
      let da ← parse2 d1 d2
      let h ← parse2 h1 h2
      let mi ← parse2 n1 n2
      let se ← parse2 s1 s2
      if 1 ≤ mo ∧ mo ≤ 12 ∧ 1 ≤ da ∧ da ≤ 31 ∧ h ≤ 23 ∧ mi ≤ 59 ∧ se ≤ 59 then
        pure ⟨⟨y, mo, da⟩, h, mi, se⟩
      else Option.none
  | _ => Option.none

/-- `parser.parse` applied to an arbitrary value: non-strings raise (caught by
the callers' `except` blocks), modelled as `Option.none`. -/
def parseVal : PyVal → Option PyDateTime
  | .vstr s => parseDate s
  | _ => Option.none

/-- Python `round(x)` to an integer: nearest, ties to even (banker's rounding). -/
def pyRoundInt (x : ℚ) : ℤ :=
  if x - ⌊x⌋ < 1/2 then ⌊x⌋
  else if 1/2 < x - ⌊x⌋ then ⌊x⌋ + 1
  else if 2 ∣ ⌊x⌋ then ⌊x⌋ else ⌊x⌋ + 1

/-- Python `round(x, 1)`. -/
def round1 (x : ℚ) : ℚ := ((pyRoundInt (10 * x) : ℤ) : ℚ) / 10

/-- `statistics.mean`. -/
def mean (l : List ℚ) : ℚ := l.sum / (l.length : ℚ)

/-- Insert into a sorted list (for the sort inside `statistics.median`). -/
def insertSorted (x : ℚ) : List ℚ → List ℚ
  | [] => [x]
  | y :: ys => if x ≤ y then x :: y :: ys else y :: insertSorted x ys

/-- Sort a list of rationals ascending. -/
def sortQ : List ℚ → List ℚ
  | [] => []
  | x :: xs => insertSorted x (sortQ xs)

/-- `statistics.median`: middle of the sorted list, or the mean of the two
middle elements for even length. -/
def median (l : List ℚ) : ℚ :=
  let s := sortQ l
  let n := s.length
  if n % 2 = 1 then s.getD (n / 2) 0
  else (s.getD (n / 2 - 1) 0 + s.getD (n / 2) 0) / 2

/-- Python `min` over a nonempty collection. -/
def listMin (x : ℚ) (xs : List ℚ) : ℚ := xs.foldl min x

/-- Python `max` over a nonempty collection. -/
def listMax (x : ℚ) (xs : List ℚ) : ℚ := xs.foldl max x

/-- Dual-location field lookup of dora_metrics.py:
`issue.get(k) or issue.get("fields", {}).get(k)`. -/
def getField (issue : PyVal) (k : String) : Except String PyVal := do
  let direct ← pyGet issue k .vnone
  if truthy direct then pure direct
  else
    let fs ← pyGet issue "fields" (.vdict [])
    pyGet fs k .vnone

/-- Does a value equal the Python string "Bug"? -/
def nameIsBug (v : PyVal) : Bool :=
  match v with
  | .vstr s => s == "Bug"
  | _ => false

/-- Is a value in the Python list `["Highest", "High"]`? -/
def nameIsCritical (v : PyVal) : Bool :=
  match v with
  | .vstr s => s == "Highest" || s == "High"
  | _ => false

/-- Bug test of dora_metrics.py:
`issue.get("issuetype", {}).get("name") == "Bug" or
 issue.get("fields", {}).get("issuetype", {}).get("name") == "Bug"`
(short-circuit preserved). -/
def isBug (issue : PyVal) : Except String Bool := do
  let it ← pyGet issue "issuetype" (.vdict [])
  let n ← pyGet it "name" .vnone
  if nameIsBug n then pure true
  else
    let fs ← pyGet issue "fields" (.vdict [])
    let it2 ← pyGet fs "issuetype" (.vdict [])
    let n2 ← pyGet it2 "name" .vnone
    pure (nameIsBug n2)

/-- Critical-priority test of dora_metrics.py (both locations, short-circuit). -/
def isCritical (issue : PyVal) : Except String Bool := do
  let p ← pyGet issue "priority" (.vdict [])
  let n ← pyGet p "name" .vnone
  if nameIsCritical n then pure true
  else
    let fs ← pyGet issue "fields" (.vdict [])
    let p2 ← pyGet fs "priority" (.vdict [])
    let n2 ← pyGet p2 "name" .vnone
    pure (nameIsCritical n2)

/-- Per-record elapsed time in units of `divisor` seconds (86400 for lead time
in days, 3600 for recovery time in hours); `Option.none` = record excluded. -/
def recordElapsed (divisor : ℚ) (issue : PyVal) : Except String (Option ℚ) := do
  let created ← getField issue "created"
  let resolved ← getField issue "resolutiondate"
  if truthy created && truthy resolved then
    match parseVal created, parseVal resolved with
    | some c, some r => pure (some (((toSec r - toSec c : ℤ) : ℚ) / divisor))
    | _, _ => pure Option.none
  else
    pure Option.none

/-- The loop collecting elapsed times over the record sequence. -/
def elapsedTimes (divisor : ℚ) : List PyVal → Except String (List ℚ)
  | [] => pure []
  | i :: rest => do
      let t ← recordElapsed divisor i
      let ts ← elapsedTimes divisor rest
      match t with
      | some x => pure (x :: ts)
      | Option.none => pure ts

/-- Python list comprehension with a fallible predicate. -/
def filterExcept (p : PyVal → Except String Bool) : List PyVal → Except String (List PyVal)
  | [] => pure []
  | x :: xs => do
      let b ← p x
      let rest ← filterExcept p xs
      pure (if b then x :: rest else rest)

/-- Per-record resolution calendar date for Deployment Frequency. -/
def recordResolvedDate (issue : PyVal) : Except String (Option PyDate) := do
  let resolved ← getField issue "resolutiondate"
  if truthy resolved then
    pure ((parseVal resolved).map PyDateTime.date)
  else
    pure Option.none

/-- The loop collecting resolution dates over the record sequence. -/
def resolutionDates : List PyVal → Except String (List PyDate)
  | [] => pure []
  | i :: rest => do
      let d ← recordResolvedDate i
      let ds ← resolutionDates rest
      match d with
      | some x => pure (x :: ds)
      | Option.none => pure ds

/-- Result of `calculate_lead_time`. -/
structure LeadTimeRes where
  average : ℚ
  median : ℚ
  min : ℚ
  max : ℚ
  count : Nat
deriving DecidableEq, Repr

/-- Result of `calculate_deployment_frequency`; `total_deployments = none`
models the key being absent from the returned dict. -/
structure DeployFreqRes where
  frequency : String
  deployments_per_week : ℚ
  total_deployments : Option Nat
deriving DecidableEq, Repr

/-- Result of `calculate_mttr`. -/
structure MTTRRes where
  average_hours : ℚ
  average_days : ℚ
  count : Nat
deriving DecidableEq, Repr

/-- Result of `calculate_change_failure_rate`. -/
structure CFRRes where
  total_issues : Nat
  bug_issues : Nat
  critical_bugs : Nat
  failure_rate_percent : ℚ
  critical_failure_rate_percent : ℚ
deriving DecidableEq, Repr

/-- DORAMetrics.calculate_lead_time. -/
def calculate_lead_time (issues : List PyVal) : Except String LeadTimeRes := do
  let ts ← elapsedTimes 86400 issues
  match ts with
  | [] => pure ⟨0, 0, 0, 0, 0⟩
  | x :: xs =>
      pure ⟨round1 (mean (x :: xs)), round1 (median (x :: xs)),
            round1 (listMin x xs), round1 (listMax x xs), (x :: xs).length⟩

/-- DORAMetrics.calculate_deployment_frequency. -/
def calculate_deployment_frequency (issues : List PyVal) : Except String DeployFreqRes := do
  let ds ← resolutionDates issues
  match ds with
  | [] => pure ⟨"No data", 0, Option.none⟩
  | _ =>
      let uniqueDays := ds.dedup.length
      pure ⟨s!"{uniqueDays} deployment days in 90 days",
            round1 ((uniqueDays : ℚ) / 90 * 7), some uniqueDays⟩

/-- DORAMetrics.calculate_mttr. -/
def calculate_mttr (issues : List PyVal) : Except String MTTRRes := do
  let bugs ← filterExcept isBug issues
  let ts ← elapsedTimes 3600 bugs
  match ts with
  | [] => pure ⟨0, 0, 0⟩
  | x :: xs =>
      let avgHours := mean (x :: xs)
      let avgDays := avgHours / 24
      pure ⟨round1 avgHours, round1 avgDays, (x :: xs).length⟩

/-- DORAMetrics.calculate_change_failure_rate. -/
def calculate_change_failure_rate (issues : List PyVal) : Except String CFRRes := do
  let total := issues.length
  let bugs ← filterExcept isBug issues
  let bugCount := bugs.length
  let failureRate : ℚ := if 0 < total then (bugCount : ℚ) / (total : ℚ) * 100 else 0
  let crits ← filterExcept isCritical bugs
  pure ⟨total, bugCount, crits.length, round1 failureRate,
        if 0 < total then round1 ((crits.length : ℚ) / (total : ℚ) * 100) else 0⟩

/-- DORAMetrics.get_performance_level: uniform `value <= threshold` chain over
the benchmark table, "Unknown" for a metric not in the table. -/
def get_performance_level (metric : String) (value : ℚ) : String :=
  let benchmarks : List (String × (ℚ × ℚ × ℚ)) :=
    [("lead_time_days", (1, 7, 30)),
     ("deployments_per_week", (7, 1, 1/5)),
     ("mttr_hours", (1, 24, 168)),
     ("failure_rate", (5, 15, 30))]
  match benchmarks.lookup metric with
  | Option.none => "Unknown"
  | some (e, h, m) =>
      if value ≤ e then "Elite"
      else if value ≤ h then "High"
      else if value ≤ m then "Medium"
      else "Low"

/-- The Analysis Result of DORAMetrics.analyze_dora_metrics. -/
structure AnalysisResult where
  lead_time : LeadTimeRes
  lead_time_level : String
  deployment_frequency : DeployFreqRes
  deployment_frequency_level : String
  mttr : MTTRRes
  mttr_level : String
  change_failure_rate : CFRRes
  change_failure_rate_level : String
  analysis_date : String
  total_issues_analyzed : Nat
deriving DecidableEq, Repr

/-- DORAMetrics.analyze_dora_metrics; `now` is the value of `datetime.now()`
formatted, the only environment input; Python returns `{}` on empty input,
modelled as `Option.none`. -/
def analyze_dora_metrics (issues : List PyVal) (now : String) :
    Except String (Option AnalysisResult) :=
  if issues.isEmpty then pure Option.none
  else do
    let lt ← calculate_lead_time issues
    let df ← calculate_deployment_frequency issues
    let mt ← calculate_mttr issues
    let fr ← calculate_change_failure_rate issues
    pure (some ⟨lt, get_performance_level "lead_time_days" lt.average,
                df, get_performance_level "deployments_per_week" df.deployments_per_week,
                mt, get_performance_level "mttr_hours" mt.average_hours,
                fr, get_performance_level "failure_rate" fr.failure_rate_percent,
                now, issues.length⟩)

/-- Erase the analysis timestamp (the only non-deterministic field). -/
def stripTimestamp (r : AnalysisResult) : AnalysisResult :=
  ⟨r.lead_time, r.lead_time_level, r.deployment_frequency, r.deployment_frequency_level,
   r.mttr, r.mttr_level, r.change_failure_rate, r.change_failure_rate_level,
   "", r.total_issues_analyzed⟩

namespace Integrated

/-- Field lookup of dora_metrics_integrated.py: nested location only,
`issue.get("fields", {}).get(k)`. -/
def getField (issue : PyVal) (k : String) : Except String PyVal := do
  let fs ← pyGet issue "fields" (.vdict [])
  pyGet fs k .vnone

/-- Bug test of dora_metrics_integrated.py (nested location only). -/
def isBug (issue : PyVal) : Except String Bool := do
  let fs ← pyGet issue "fields" (.vdict [])
  let it ← pyGet fs "issuetype" (.vdict [])
  let n ← pyGet it "name" .vnone
  pure (nameIsBug n)

/-- Critical-priority test of dora_metrics_integrated.py (nested only). -/
def isCritical (issue : PyVal) : Except String Bool := do
  let fs ← pyGet issue "fields" (.vdict [])
  let p ← pyGet fs "priority" (.vdict [])
  let n ← pyGet p "name" .vnone
  pure (nameIsCritical n)

/-- Per-record elapsed time (integrated variant). -/
def recordElapsed (divisor : ℚ) (issue : PyVal) : Except String (Option ℚ) := do
  let created ← Integrated.getField issue "created"
  let resolved ← Integrated.getField issue "resolutiondate"
  if truthy created && truthy resolved then
    match parseVal created, parseVal resolved with
    | some c, some r => pure (some (((toSec r - toSec c : ℤ) : ℚ) / divisor))
    | _, _ => pure Option.none
  else
    pure Option.none

/-- Elapsed-time collection loop (integrated variant). -/
def elapsedTimes (divisor : ℚ) : List PyVal → Except String (List ℚ)
  | [] => pure []
  | i :: rest => do
      let t ← Integrated.recordElapsed divisor i
      let ts ← Integrated.elapsedTimes divisor rest
      match t with
      | some x => pure (x :: ts)
      | Option.none => pure ts

/-- Per-record resolution date (integrated variant). -/
def recordResolvedDate (issue : PyVal) : Except String (Option PyDate) := do
  let resolved ← Integrated.getField issue "resolutiondate"
  if truthy resolved then
    pure ((parseVal resolved).map PyDateTime.date)
  else
    pure Option.none

/-- Resolution-date collection loop (integrated variant). -/
def resolutionDates : List PyVal → Except String (List PyDate)
  | [] => pure []
  | i :: rest => do
      let d ← Integrated.recordResolvedDate i
      let ds ← Integrated.resolutionDates rest
      match d with
      | some x => pure (x :: ds)
      | Option.none => pure ds

/-- DORAMetricsIntegrated.calculate_lead_time. -/
def calculate_lead_time (issues : List PyVal) : Except String LeadTimeRes := do
  let ts ← Integrated.elapsedTimes 86400 issues
  match ts with
  | [] => pure ⟨0, 0, 0, 0, 0⟩
  | x :: xs =>
      pure ⟨round1 (mean (x :: xs)), round1 (median (x :: xs)),
            round1 (listMin x xs), round1 (listMax x xs), (x :: xs).length⟩

/-- DORAMetricsIntegrated.calculate_deployment_frequency. -/
def calculate_deployment_frequency (issues : List PyVal) : Except String DeployFreqRes := do
  let ds ← Integrated.resolutionDates issues
  match ds with
  | [] => pure ⟨"No data", 0, Option.none⟩
  | _ =>
      let uniqueDays := ds.dedup.length
      pure ⟨s!"{uniqueDays} deployment days in 90 days",
            round1 ((uniqueDays : ℚ) / 90 * 7), some uniqueDays⟩

/-- DORAMetricsIntegrated.calculate_mttr. -/
def calculate_mttr (issues : List PyVal) : Except String MTTRRes := do
  let bugs ← filterExcept Integrated.isBug issues
  let ts ← Integrated.elapsedTimes 3600 bugs
  match ts with
  | [] => pure ⟨0, 0, 0⟩
  | x :: xs =>
      let avgHours := mean (x :: xs)
      let avgDays := avgHours / 24
      pure ⟨round1 avgHours, round1 avgDays, (x :: xs).length⟩

/-- DORAMetricsIntegrated.calculate_change_failure_rate. -/
def calculate_change_failure_rate (issues : List PyVal) : Except String CFRRes := do
  let total := issues.length
  let bugs ← filterExcept Integrated.isBug issues
  let bugCount := bugs.length
  let failureRate : ℚ := if 0 < total then (bugCount : ℚ) / (total : ℚ) * 100 else 0
  let crits ← filterExcept Integrated.isCritical bugs
  pure ⟨total, bugCount, crits.length, round1 failureRate,
        if 0 < total then round1 ((crits.length : ℚ) / (total : ℚ) * 100) else 0⟩

end Integrated

/-- Is the value stored under key `k` (if any) a dict? Holds vacuously when the
key is absent. -/
def isDictOrAbsent (es : List (String × PyVal)) (k : String) : Bool :=
  match es.lookup k with
  | Option.none => true
  | some (.vdict _) => true
  | some _ => false

/-- Is the `fields` value (if present) a dict whose `issuetype` and `priority`
values (if present) are dicts? -/
def nestedOk (es : List (String × PyVal)) : Bool :=
  match es.lookup "fields" with
  | Option.none => true
  | some (.vdict fs) => isDictOrAbsent fs "issuetype" && isDictOrAbsent fs "priority"
  | some _ => false

/-- Well-shaped record: a dict whose `issuetype`, `priority` and `fields`
values (where present) are dicts, likewise for `issuetype`/`priority` inside
`fields`. Timestamp fields may have any shape. -/
def WF (issue : PyVal) : Bool :=
  match issue with
  | .vdict es =>
      isDictOrAbsent es "issuetype" && isDictOrAbsent es "priority" && nestedOk es
  | _ => false

/-- Does the record omit key `k` at top level? (Vacuous for non-dicts.) -/
def topAbsent (issue : PyVal) (k : String) : Bool :=
  match issue with
  | .vdict es => (es.lookup k).isNone
  | _ => true

/-- Record carrying the four logical fields only nested under `fields`:
no top-level `created`, `resolutiondate`, `issuetype` or `priority` key. -/
def noTopLevelFields (issue : PyVal) : Bool :=
  topAbsent issue "created" && topAbsent issue "resolutiondate" &&
  topAbsent issue "issuetype" && topAbsent issue "priority"

end DORA

namespace DORA

@[simp] lemma ok_bind {α β : Type} (a : α) (f : α → Except String β) :
    (Except.ok a >>= f : Except String β) = f a := rfl

@[simp] lemma error_bind {α β : Type} (e : String) (f : α → Except String β) :
    (Except.error e >>= f : Except String β) = Except.error e := rfl

@[simp] lemma pure_eq_ok {α : Type} (a : α) :
    (pure a : Except String α) = Except.ok a := rfl

lemma pyGet_dict (es : List (String × PyVal)) (k : String) (dflt : PyVal) :
    pyGet (.vdict es) k dflt = .ok ((es.lookup k).getD dflt) := rfl

lemma getField_ok (es : List (String × PyVal)) (k : String)
    (h : nestedOk es = true) : ∃ v, getField (.vdict es) k = .ok v := by
  unfold getField
  rw [pyGet_dict, ok_bind]
  by_cases ht : truthy ((es.lookup k).getD .vnone) = true
  · rw [if_pos ht]
    exact ⟨_, rfl⟩
  · simp only [Bool.not_eq_true] at ht
    rw [if_neg (by simp [ht])]
    unfold nestedOk at h
    rw [pyGet_dict, ok_bind]
    cases hl : es.lookup "fields" with
    | none =>
      simp only [Option.getD_none]
      rw [pyGet_dict]
      exact ⟨_, rfl⟩
    | some v =>
      cases v with
      | vdict fs =>
        simp only [Option.getD_some]
        rw [pyGet_dict]
        exact ⟨_, rfl⟩
      | vnone => rw [hl] at h; simp at h
      | vstr s => rw [hl] at h; simp at h
      | vint n => rw [hl] at h; simp at h


lemma getD_dict_of_isDictOrAbsent (es : List (String × PyVal)) (k : String)
    (h : isDictOrAbsent es k = true) :
    ∃ fs, (es.lookup k).getD (.vdict []) = .vdict fs := by
  unfold isDictOrAbsent at h
  cases hl : es.lookup k with
  | none => exact ⟨[], by simp⟩
  | some v =>
    cases v with
    | vdict fs => exact ⟨fs, by simp⟩
    | vnone => rw [hl] at h; simp at h
    | vstr s => rw [hl] at h; simp at h
    | vint n => rw [hl] at h; simp at h

lemma nestedOk_elim (es : List (String × PyVal)) (h : nestedOk es = true) :
    ∃ fs, (es.lookup "fields").getD (.vdict []) = .vdict fs ∧
      isDictOrAbsent fs "issuetype" = true ∧ isDictOrAbsent fs "priority" = true := by
  unfold nestedOk at h
  cases hl : es.lookup "fields" with
  | none => exact ⟨[], by simp, rfl, rfl⟩
  | some v =>
    cases v with
    | vdict fs =>
      rw [hl] at h
      simp only [Bool.and_eq_true] at h
      exact ⟨fs, by simp, h.1, h.2⟩
    | vnone => rw [hl] at h; simp at h
    | vstr s => rw [hl] at h; simp at h
    | vint n => rw [hl] at h; simp at h

lemma WF_elim (i : PyVal) (h : WF i = true) :
    ∃ es, i = .vdict es ∧ isDictOrAbsent es "issuetype" = true ∧
      isDictOrAbsent es "priority" = true ∧ nestedOk es = true := by
  cases i with
  | vdict es =>
    unfold WF at h
    simp only [Bool.and_eq_true] at h
    exact ⟨es, rfl, h.1.1, h.1.2, h.2⟩
  | vnone => simp [WF] at h
  | vstr s => simp [WF] at h
  | vint n => simp [WF] at h

lemma isBug_ok (i : PyVal) (h : WF i = true) : ∃ b, isBug i = .ok b := by
  obtain ⟨es, rfl, hit, _, hn⟩ := WF_elim i h
  unfold isBug
  rw [pyGet_dict, ok_bind]
  obtain ⟨it, hitd⟩ := getD_dict_of_isDictOrAbsent es "issuetype" hit
  rw [hitd, pyGet_dict, ok_bind]
  by_cases hb : nameIsBug ((it.lookup "name").getD .vnone) = true
  · rw [if_pos hb]
    exact ⟨_, rfl⟩
  · rw [if_neg (by simp [hb])]
    obtain ⟨fs, hfsd, hfi, _⟩ := nestedOk_elim es hn
    rw [pyGet_dict, ok_bind, hfsd, pyGet_dict, ok_bind]
    obtain ⟨it2, hitd2⟩ := getD_dict_of_isDictOrAbsent fs "issuetype" hfi
    rw [hitd2, pyGet_dict, ok_bind]
    exact ⟨_, rfl⟩

lemma isCritical_ok (i : PyVal) (h : WF i = true) : ∃ b, isCritical i = .ok b := by
  obtain ⟨es, rfl, _, hp, hn⟩ := WF_elim i h
  unfold isCritical
  rw [pyGet_dict, ok_bind]
  obtain ⟨p, hpd⟩ := getD_dict_of_isDictOrAbsent es "priority" hp
  rw [hpd, pyGet_dict, ok_bind]
  by_cases hb : nameIsCritical ((p.lookup "name").getD .vnone) = true
  · rw [if_pos hb]
    exact ⟨_, rfl⟩
  · rw [if_neg (by simp [hb])]
    obtain ⟨fs, hfsd, _, hfp⟩ := nestedOk_elim es hn
    rw [pyGet_dict, ok_bind, hfsd, pyGet_dict, ok_bind]
    obtain ⟨p2, hpd2⟩ := getD_dict_of_isDictOrAbsent fs "priority" hfp
    rw [hpd2, pyGet_dict, ok_bind]
    exact ⟨_, rfl⟩

lemma recordElapsed_ok (d : ℚ) (i : PyVal) (h : WF i = true) :
    ∃ o, recordElapsed d i = .ok o := by
  obtain ⟨es, rfl, _, _, hn⟩ := WF_elim i h
  unfold recordElapsed
  obtain ⟨c, hc⟩ := getField_ok es "created" hn
  obtain ⟨r, hr⟩ := getField_ok es "resolutiondate" hn
  rw [hc, ok_bind, hr, ok_bind]
  split
  · split <;> exact ⟨_, rfl⟩
  · exact ⟨_, rfl⟩

lemma elapsedTimes_ok (d : ℚ) (issues : List PyVal)
    (h : ∀ i ∈ issues, WF i = true) : ∃ ts, elapsedTimes d issues = .ok ts := by
  induction issues with
  | nil => exact ⟨[], rfl⟩
  | cons i rest ih =>
    obtain ⟨o, ho⟩ := recordElapsed_ok d i (h i (List.mem_cons_self i rest))
    obtain ⟨ts, hts⟩ := ih (fun j hj => h j (List.mem_cons_of_mem i hj))
    unfold elapsedTimes
    rw [ho, ok_bind, hts, ok_bind]
    cases o <;> exact ⟨_, rfl⟩

lemma recordResolvedDate_ok (i : PyVal) (h : WF i = true) :
    ∃ o, recordResolvedDate i = .ok o := by
  obtain ⟨es, rfl, _, _, hn⟩ := WF_elim i h
  unfold recordResolvedDate
  obtain ⟨r, hr⟩ := getField_ok es "resolutiondate" hn
  rw [hr, ok_bind]
  split
  · exact ⟨_, rfl⟩
  · exact ⟨_, rfl⟩

lemma resolutionDates_ok (issues : List PyVal)
    (h : ∀ i ∈ issues, WF i = true) : ∃ ds, resolutionDates issues = .ok ds := by
  induction issues with
  | nil => exact ⟨[], rfl⟩
  | cons i rest ih =>
    obtain ⟨o, ho⟩ := recordResolvedDate_ok i (h i (List.mem_cons_self i rest))
    obtain ⟨ds, hds⟩ := ih (fun j hj => h j (List.mem_cons_of_mem i hj))
    unfold resolutionDates
    rw [ho, ok_bind, hds, ok_bind]
    cases o <;> exact ⟨_, rfl⟩

lemma filterExcept_ok (p : PyVal → Except String Bool) (l : List PyVal)
    (h : ∀ x ∈ l, ∃ b, p x = .ok b) : ∃ r, filterExcept p l = .ok r := by
  induction l with
  | nil => exact ⟨[], rfl⟩
  | cons x xs ih =>
    obtain ⟨b, hb⟩ := h x (List.mem_cons_self x xs)
    obtain ⟨r, hr⟩ := ih (fun j hj => h j (List.mem_cons_of_mem x hj))
    unfold filterExcept
    rw [hb, ok_bind, hr, ok_bind]
    exact ⟨_, rfl⟩

lemma filterExcept_subset (p : PyVal → Except String Bool) (l r : List PyVal)
    (h : filterExcept p l = .ok r) : ∀ x ∈ r, x ∈ l := by
  induction l generalizing r with
  | nil =>
    unfold filterExcept at h
    cases h
    intro x hx
    exact absurd hx (List.not_mem_nil x)
  | cons y ys ih =>
    unfold filterExcept at h
    cases hb : p y with
    | error e => rw [hb] at h; simp at h
    | ok b =>
      rw [hb, ok_bind] at h
      cases hr : filterExcept p ys with
      | error e => rw [hr] at h; simp at h
      | ok rest =>
        rw [hr, ok_bind] at h
        simp only [pure_eq_ok, Except.ok.injEq] at h
        subst h
        intro x hx
        cases b with
        | true =>
          rw [if_pos rfl] at hx
          rcases List.mem_cons.mp hx with hx | hx
          · exact hx ▸ List.mem_cons_self y ys
          · exact List.mem_cons_of_mem y (ih rest hr x hx)
        | false =>
          rw [if_neg (by simp)] at hx
          exact List.mem_cons_of_mem y (ih rest hr x hx)


lemma calculate_lead_time_ok (issues : List PyVal) (h : ∀ i ∈ issues, WF i = true) :
    ∃ r, calculate_lead_time issues = .ok r := by
  obtain ⟨ts, hts⟩ := elapsedTimes_ok 86400 issues h
  unfold calculate_lead_time
  rw [hts, ok_bind]
  cases ts <;> exact ⟨_, rfl⟩

lemma calculate_deployment_frequency_ok (issues : List PyVal)
    (h : ∀ i ∈ issues, WF i = true) :
    ∃ r, calculate_deployment_frequency issues = .ok r := by
  obtain ⟨ds, hds⟩ := resolutionDates_ok issues h
  unfold calculate_deployment_frequency
  rw [hds, ok_bind]
  cases ds <;> exact ⟨_, rfl⟩

lemma calculate_mttr_ok (issues : List PyVal) (h : ∀ i ∈ issues, WF i = true) :
    ∃ r, calculate_mttr issues = .ok r := by
  obtain ⟨bugs, hbugs⟩ := filterExcept_ok isBug issues (fun i hi => isBug_ok i (h i hi))
  have hsub := filterExcept_subset isBug issues bugs hbugs
  obtain ⟨ts, hts⟩ := elapsedTimes_ok 3600 bugs (fun i hi => h i (hsub i hi))
  unfold calculate_mttr
  rw [hbugs, ok_bind, hts, ok_bind]
  cases ts <;> exact ⟨_, rfl⟩

lemma calculate_change_failure_rate_ok (issues : List PyVal)
    (h : ∀ i ∈ issues, WF i = true) :
    ∃ r, calculate_change_failure_rate issues = .ok r := by
  obtain ⟨bugs, hbugs⟩ := filterExcept_ok isBug issues (fun i hi => isBug_ok i (h i hi))
  have hsub := filterExcept_subset isBug issues bugs hbugs
  obtain ⟨crits, hcrits⟩ :=
    filterExcept_ok isCritical bugs (fun i hi => isCritical_ok i (h i (hsub i hi)))
  unfold calculate_change_failure_rate
  rw [hbugs, ok_bind, hcrits, ok_bind]
  exact ⟨_, rfl⟩

lemma analyze_dora_metrics_ok (issues : List PyVal) (now : String)
    (h : ∀ i ∈ issues, WF i = true) :
    ∃ r, analyze_dora_metrics issues now = .ok r := by
  unfold analyze_dora_metrics
  by_cases he : issues.isEmpty = true
  · rw [if_pos he]
    exact ⟨_, rfl⟩
  · rw [if_neg he]
    obtain ⟨lt, hlt⟩ := calculate_lead_time_ok issues h
    obtain ⟨df, hdf⟩ := calculate_deployment_frequency_ok issues h
    obtain ⟨mt, hmt⟩ := calculate_mttr_ok issues h
    obtain ⟨fr, hfr⟩ := calculate_change_failure_rate_ok issues h
    rw [hlt, ok_bind, hdf, ok_bind, hmt, ok_bind, hfr, ok_bind]
    exact ⟨_, rfl⟩

lemma le_foldl_max (l : List ℚ) (b : ℚ) : b ≤ l.foldl max b := by
  induction l generalizing b with
  | nil => exact le_refl b
  | cons y ys ih => exact le_trans (le_max_left b y) (ih (max b y))

lemma mem_le_foldl_max (l : List ℚ) (b : ℚ) : ∀ z ∈ l, z ≤ l.foldl max b := by
  induction l generalizing b with
  | nil => intro z hz; exact absurd hz (List.not_mem_nil z)
  | cons y ys ih =>
    intro z hz
    rcases List.mem_cons.mp hz with rfl | hz
    · exact le_trans (le_max_right b z) (le_foldl_max ys (max b z))
    · exact ih (max b y) z hz

lemma foldl_min_le (l : List ℚ) (b : ℚ) : l.foldl min b ≤ b := by
  induction l generalizing b with
  | nil => exact le_refl b
  | cons y ys ih => exact le_trans (ih (min b y)) (min_le_left b y)

lemma foldl_min_le_mem (l : List ℚ) (b : ℚ) : ∀ z ∈ l, l.foldl min b ≤ z := by
  induction l generalizing b with
  | nil => intro z hz; exact absurd hz (List.not_mem_nil z)
  | cons y ys ih =>
    intro z hz
    rcases List.mem_cons.mp hz with rfl | hz
    · exact le_trans (foldl_min_le ys (min b z)) (min_le_right b z)
    · exact ih (min b y) z hz

lemma mean_le_listMax (x : ℚ) (xs : List ℚ) : mean (x :: xs) ≤ listMax x xs := by
  unfold mean listMax
  rw [div_le_iff₀ (Nat.cast_pos.mpr (List.length_pos_of_ne_nil (List.cons_ne_nil x xs)))]
  have hmem : ∀ z ∈ x :: xs, z ≤ xs.foldl max x := by
    intro z hz
    rcases List.mem_cons.mp hz with rfl | hz
    · exact le_foldl_max xs z
    · exact mem_le_foldl_max xs x z hz
  have := List.sum_le_card_nsmul (x :: xs) (xs.foldl max x) hmem
  rw [nsmul_eq_mul] at this
  linarith [this]

lemma listMin_le_mean (x : ℚ) (xs : List ℚ) : listMin x xs ≤ mean (x :: xs) := by
  unfold mean listMin
  rw [le_div_iff₀ (Nat.cast_pos.mpr (List.length_pos_of_ne_nil (List.cons_ne_nil x xs)))]
  have hmem : ∀ z ∈ x :: xs, xs.foldl min x ≤ z := by
    intro z hz
    rcases List.mem_cons.mp hz with rfl | hz
    · exact foldl_min_le xs z
    · exact foldl_min_le_mem xs x z hz
  have := List.card_nsmul_le_sum (x :: xs) (xs.foldl min x) hmem
  rw [nsmul_eq_mul] at this
  linarith [this]


lemma pyRoundInt_mono {x y : ℚ} (h : x ≤ y) : pyRoundInt x ≤ pyRoundInt y := by
  have hf : ⌊x⌋ ≤ ⌊y⌋ := Int.floor_mono h
  rcases lt_or_eq_of_le hf with hlt | heq
  · have h1 : pyRoundInt x ≤ ⌊x⌋ + 1 := by
      unfold pyRoundInt
      split_ifs <;> omega
    have h2 : (⌊y⌋ : ℤ) ≤ pyRoundInt y := by
      unfold pyRoundInt
      split_ifs <;> omega
    omega
  · unfold pyRoundInt
    rw [← heq]
    have hfx : (⌊x⌋ : ℚ) ≤ x := Int.floor_le x
    split_ifs <;> first | omega | (exfalso; linarith)

lemma round1_mono {x y : ℚ} (h : x ≤ y) : round1 x ≤ round1 y := by
  unfold round1
  have hi := pyRoundInt_mono (by linarith : 10 * x ≤ 10 * y)
  have hc : ((pyRoundInt (10 * x) : ℤ) : ℚ) ≤ ((pyRoundInt (10 * y) : ℤ) : ℚ) := by
    exact_mod_cast hi
  linarith

lemma getField_eq_integrated (i : PyVal) (k : String) (h : topAbsent i k = true) :
    getField i k = Integrated.getField i k := by
  cases i with
  | vdict es =>
    unfold topAbsent at h
    rw [Option.isNone_iff_eq_none] at h
    unfold getField Integrated.getField
    rw [pyGet_dict es k, h]
    simp only [Option.getD_none, ok_bind]
    rw [if_neg (by simp [truthy])]
  | vnone => rfl
  | vstr s => rfl
  | vint n => rfl

lemma isBug_eq_integrated (i : PyVal) (h : topAbsent i "issuetype" = true) :
    isBug i = Integrated.isBug i := by
  cases i with
  | vdict es =>
    unfold topAbsent at h
    rw [Option.isNone_iff_eq_none] at h
    unfold isBug Integrated.isBug
    rw [pyGet_dict es "issuetype", h]
    simp only [Option.getD_none, ok_bind]
    rw [pyGet_dict [], ok_bind]
    simp only [List.lookup_nil, Option.getD_none]
    rw [if_neg (by simp [nameIsBug])]
  | vnone => rfl
  | vstr s => rfl
  | vint n => rfl

lemma isCritical_eq_integrated (i : PyVal) (h : topAbsent i "priority" = true) :
    isCritical i = Integrated.isCritical i := by
  cases i with
  | vdict es =>
    unfold topAbsent at h
    rw [Option.isNone_iff_eq_none] at h
    unfold isCritical Integrated.isCritical
    rw [pyGet_dict es "priority", h]
    simp only [Option.getD_none, ok_bind]
    rw [pyGet_dict [], ok_bind]
    simp only [List.lookup_nil, Option.getD_none]
    rw [if_neg (by simp [nameIsCritical])]
  | vnone => rfl
  | vstr s => rfl
  | vint n => rfl

lemma noTop_created (i : PyVal) (h : noTopLevelFields i = true) :
    topAbsent i "created" = true := by
  unfold noTopLevelFields at h
  simp only [Bool.and_eq_true] at h
  exact h.1.1.1

lemma noTop_resolved (i : PyVal) (h : noTopLevelFields i = true) :
    topAbsent i "resolutiondate" = true := by
  unfold noTopLevelFields at h
  simp only [Bool.and_eq_true] at h
  exact h.1.1.2

lemma noTop_issuetype (i : PyVal) (h : noTopLevelFields i = true) :
    topAbsent i "issuetype" = true := by
  unfold noTopLevelFields at h
  simp only [Bool.and_eq_true] at h
  exact h.1.2

lemma noTop_priority (i : PyVal) (h : noTopLevelFields i = true) :
    topAbsent i "priority" = true := by
  unfold noTopLevelFields at h
  simp only [Bool.and_eq_true] at h
  exact h.2

lemma recordElapsed_eq_integrated (d : ℚ) (i : PyVal) (h : noTopLevelFields i = true) :
    recordElapsed d i = Integrated.recordElapsed d i := by
  unfold recordElapsed Integrated.recordElapsed
  rw [getField_eq_integrated i "created" (noTop_created i h),
      getField_eq_integrated i "resolutiondate" (noTop_resolved i h)]

lemma elapsedTimes_eq_integrated (d : ℚ) (issues : List PyVal)
    (h : ∀ i ∈ issues, noTopLevelFields i = true) :
    elapsedTimes d issues = Integrated.elapsedTimes d issues := by
  induction issues with
  | nil => rfl
  | cons i rest ih =>
    unfold elapsedTimes Integrated.elapsedTimes
    rw [recordElapsed_eq_integrated d i (h i (List.mem_cons_self i rest)),
        ih (fun j hj => h j (List.mem_cons_of_mem i hj))]

lemma recordResolvedDate_eq_integrated (i : PyVal) (h : noTopLevelFields i = true) :
    recordResolvedDate i = Integrated.recordResolvedDate i := by
  unfold recordResolvedDate Integrated.recordResolvedDate
  rw [getField_eq_integrated i "resolutiondate" (noTop_resolved i h)]

lemma resolutionDates_eq_integrated (issues : List PyVal)
    (h : ∀ i ∈ issues, noTopLevelFields i = true) :
    resolutionDates issues = Integrated.resolutionDates issues := by
  induction issues with
  | nil => rfl
  | cons i rest ih =>
    unfold resolutionDates Integrated.resolutionDates
    rw [recordResolvedDate_eq_integrated i (h i (List.mem_cons_self i rest)),
        ih (fun j hj => h j (List.mem_cons_of_mem i hj))]

lemma filterExcept_congr (p q : PyVal → Except String Bool) (l : List PyVal)
    (h : ∀ x ∈ l, p x = q x) : filterExcept p l = filterExcept q l := by
  induction l with
  | nil => rfl
  | cons x xs ih =>
    unfold filterExcept
    rw [h x (List.mem_cons_self x xs), ih (fun j hj => h j (List.mem_cons_of_mem x hj))]


lemma calculate_lead_time_eq_integrated (issues : List PyVal)
    (h : ∀ i ∈ issues, noTopLevelFields i = true) :
    calculate_lead_time issues = Integrated.calculate_lead_time issues := by
  unfold calculate_lead_time Integrated.calculate_lead_time
  rw [elapsedTimes_eq_integrated 86400 issues h]

lemma calculate_deployment_frequency_eq_integrated (issues : List PyVal)
    (h : ∀ i ∈ issues, noTopLevelFields i = true) :
    calculate_deployment_frequency issues = Integrated.calculate_deployment_frequency issues := by
  unfold calculate_deployment_frequency Integrated.calculate_deployment_frequency
  rw [resolutionDates_eq_integrated issues h]

lemma calculate_mttr_eq_integrated (issues : List PyVal)
    (h : ∀ i ∈ issues, noTopLevelFields i = true) :
    calculate_mttr issues = Integrated.calculate_mttr issues := by
  unfold calculate_mttr Integrated.calculate_mttr
  rw [filterExcept_congr isBug Integrated.isBug issues
        (fun x hx => isBug_eq_integrated x (noTop_issuetype x (h x hx)))]
  cases hfb : filterExcept Integrated.isBug issues with
  | error e => rfl
  | ok bugs =>
    rw [ok_bind, ok_bind]
    rw [elapsedTimes_eq_integrated 3600 bugs
          (fun j hj => h j (filterExcept_subset Integrated.isBug issues bugs hfb j hj))]

lemma calculate_change_failure_rate_eq_integrated (issues : List PyVal)
    (h : ∀ i ∈ issues, noTopLevelFields i = true) :
    calculate_change_failure_rate issues = Integrated.calculate_change_failure_rate issues := by
  unfold calculate_change_failure_rate Integrated.calculate_change_failure_rate
  rw [filterExcept_congr isBug Integrated.isBug issues
        (fun x hx => isBug_eq_integrated x (noTop_issuetype x (h x hx)))]
  cases hfb : filterExcept Integrated.isBug issues with
  | error e => rfl
  | ok bugs =>
    rw [ok_bind, ok_bind]
    rw [filterExcept_congr isCritical Integrated.isCritical bugs
          (fun x hx => isCritical_eq_integrated x
            (noTop_priority x (h x (filterExcept_subset Integrated.isBug issues bugs hfb x hx))))]


lemma round1_zero : round1 0 = 0 := by with_unfolding_all rfl

/-- Sample for the C3 witness: one record with an unparseable timestamp, one empty record. -/
def sampleWF : List PyVal :=
  [.vdict [("created", .vstr "garbage"), ("resolutiondate", .vstr "2024-01-02T00:00:00")],
   .vdict []]

/-- Bug-typed record used by the C6 witness. -/
def cfrBug : PyVal := .vdict [("issuetype", .vdict [("name", .vstr "Bug")])]

/-- Ten records, three of them Bugs, for the C6 witness. -/
def cfrTen : List PyVal :=
  [cfrBug, cfrBug, cfrBug, .vdict [], .vdict [], .vdict [], .vdict [], .vdict [], .vdict [],
   .vdict []]

/-- Sample for the C5 witness: two resolutions on the same day, one on another day,
one record with no resolution. -/
def sampleDF : List PyVal :=
  [.vdict [("resolutiondate", .vstr "2024-01-01T10:00:00")],
   .vdict [("resolutiondate", .vstr "2024-01-01T23:59:59")],
   .vdict [("resolutiondate", .vstr "2024-01-02T00:00:00")],
   .vdict []]

/-- Resolution dates of `sampleDF`. -/
def dsDF : List PyDate := [⟨2024, 1, 1⟩, ⟨2024, 1, 1⟩, ⟨2024, 1, 2⟩]

/-- Sample for the C8 witness: two fully parseable records (2 days and 1 day of lead time). -/
def sampleLT : List PyVal :=
  [.vdict [("created", .vstr "2024-01-01T00:00:00"),
           ("resolutiondate", .vstr "2024-01-03T00:00:00")],
   .vdict [("created", .vstr "2024-01-01T00:00:00"),
           ("resolutiondate", .vstr "2024-01-02T00:00:00")]]

/-- Sample for the C10 witness: a record carrying all four logical fields only under
the nested `fields` key. -/
def sampleNested : List PyVal :=
  [.vdict [("key", .vstr "PROJ-1000"),
     ("fields", .vdict
       [("issuetype", .vdict [("name", .vstr "Bug")]),
        ("created", .vstr "2024-01-01T00:00:00"),
        ("priority", .vdict [("name", .vstr "High")]),
        ("resolutiondate", .vstr "2024-01-02T00:00:00")])]]

/-- C1: the claim states the Tier Classifier branches on each metric's polarity so that
every deployment frequency v > 7 per week is classified Elite. The code instead applies
the uniform `value <= threshold` comparator to deployments_per_week as well: 8 per week
is classified "Low" and 0 per week "Elite", contradicting the claim (and the spec's
stated intent) at the concrete failing inputs. -/
theorem c1_classifier_uniform_comparator :
    get_performance_level "deployments_per_week" 8 = "Low" ∧
    get_performance_level "deployments_per_week" 0 = "Elite" :=
  ⟨by with_unfolding_all rfl, by with_unfolding_all rfl⟩

/-- C2 counterexample: a record whose top-level `created` is present but unparseable is
excluded from Lead Time even though the nested `fields.created` value is parseable
(count = 0), and a record whose top-level issueType is "Story" is still counted as a Bug
because of its nested issueType "Bug" (bug_issues = 1) — both contradicting C2. -/
theorem c2_counterexample :
    parseDate "not a date" = Option.none ∧
    (parseDate "2024-01-01T00:00:00").isSome = true ∧
    calculate_lead_time
      [PyVal.vdict [("created", PyVal.vstr "not a date"),
        ("resolutiondate", PyVal.vstr "2024-01-05T00:00:00"),
        ("fields", PyVal.vdict [("created", PyVal.vstr "2024-01-01T00:00:00")])]] =
      .ok ⟨0, 0, 0, 0, 0⟩ ∧
    calculate_change_failure_rate
      [PyVal.vdict [("issuetype", PyVal.vdict [("name", PyVal.vstr "Story")]),
        ("fields", PyVal.vdict [("issuetype", PyVal.vdict [("name", PyVal.vstr "Bug")])])]] =
      .ok ⟨1, 1, 0, 100, 0⟩ :=
  ⟨rfl, by with_unfolding_all rfl, by with_unfolding_all rfl, by with_unfolding_all rfl⟩

/-- C2 amended: the field lookup returns the top-level value whenever it is present and
truthy — even when unparseable, in which case the record is excluded despite a parseable
nested value — and falls back to the nested location only when the top-level value is
absent or falsy; for issueType, a record is counted as a Bug when either location's
issueType name equals "Bug", so a nested "Bug" counts even when the top-level issueType
is not "Bug". -/
theorem c2_amended_field_lookup :
    (∀ (es : List (String × PyVal)) (k : String),
      truthy ((es.lookup k).getD .vnone) = true →
      getField (.vdict es) k = .ok ((es.lookup k).getD .vnone)) ∧
    (∀ (es fs : List (String × PyVal)) (k : String),
      truthy ((es.lookup k).getD .vnone) = false →
      es.lookup "fields" = some (.vdict fs) →
      getField (.vdict es) k = .ok ((fs.lookup k).getD .vnone)) ∧
    (∀ (es it fs it2 : List (String × PyVal)) (s : String),
      es.lookup "issuetype" = some (.vdict it) →
      it.lookup "name" = some (.vstr s) → s ≠ "Bug" →
      es.lookup "fields" = some (.vdict fs) →
      fs.lookup "issuetype" = some (.vdict it2) →
      it2.lookup "name" = some (.vstr "Bug") →
      isBug (.vdict es) = .ok true) := by
  refine ⟨?_, ?_, ?_⟩
  · intro es k ht
    unfold getField
    rw [pyGet_dict es k, ok_bind, if_pos ht]
    rfl
  · intro es fs k ht hf
    unfold getField
    rw [pyGet_dict es k, ok_bind, if_neg (by simp [ht])]
    rw [pyGet_dict es "fields", hf]
    simp only [Option.getD_some]
    rw [ok_bind, pyGet_dict]
  · intro es it fs it2 s hit hname hs hf hit2 hname2
    unfold isBug
    rw [pyGet_dict es "issuetype", hit]
    simp only [Option.getD_some]
    rw [ok_bind, pyGet_dict it "name", hname]
    simp only [Option.getD_some]
    rw [ok_bind, if_neg (by simp [nameIsBug, hs])]
    rw [pyGet_dict es "fields", hf]
    simp only [Option.getD_some]
    rw [ok_bind, pyGet_dict fs "issuetype", hit2]
    simp only [Option.getD_some]
    rw [ok_bind, pyGet_dict it2 "name", hname2]
    simp only [Option.getD_some]
    rw [ok_bind]
    rfl

/-- Witness for the C2 amended theorem at a concrete record. -/
theorem c2_amended_witness :
    truthy (([("created", PyVal.vstr "garbage")].lookup "created").getD .vnone) = true ∧
    getField (.vdict [("created", PyVal.vstr "garbage")]) "created" =
      .ok (([("created", PyVal.vstr "garbage")].lookup "created").getD .vnone) :=
  ⟨by with_unfolding_all rfl,
   c2_amended_field_lookup.1 [("created", PyVal.vstr "garbage")] "created"
     (by with_unfolding_all rfl)⟩

/-- C3 counterexample: a single record whose `issuetype` field is the string "Bug"
(not a dict) makes the MTTR calculator raise AttributeError — the `.get` chains sit
outside the try/except, so a malformed record aborts the whole batch, contradicting C3. -/
theorem c3_counterexample :
    calculate_mttr [PyVal.vdict [("issuetype", PyVal.vstr "Bug")]] =
      .error "AttributeError" := by
  with_unfolding_all rfl

/-- C3 amended: the four Metric Calculators and the Aggregator return a result and never
raise provided every record is a dict whose `issuetype`, `priority` and `fields` values
(where present, at either level) are dicts; under that shape condition, unparseable or
arbitrarily-typed timestamp values only exclude the record from the affected metric's
population. Records with non-dict values in those positions instead raise (see the
counterexample). -/
theorem c3_amended_total_on_wf (issues : List PyVal) (now : String)
    (h : ∀ i ∈ issues, WF i = true) :
    (∃ r, calculate_lead_time issues = .ok r) ∧
    (∃ r, calculate_deployment_frequency issues = .ok r) ∧
    (∃ r, calculate_mttr issues = .ok r) ∧
    (∃ r, calculate_change_failure_rate issues = .ok r) ∧
    (∃ r, analyze_dora_metrics issues now = .ok r) :=
  ⟨calculate_lead_time_ok issues h, calculate_deployment_frequency_ok issues h,
   calculate_mttr_ok issues h, calculate_change_failure_rate_ok issues h,
   analyze_dora_metrics_ok issues now h⟩

/-- Witness for the C3 amended theorem: a batch with an unparseable timestamp still
returns results for all calculators and the aggregator. -/
theorem c3_amended_witness :
    (∀ i ∈ sampleWF, WF i = true) ∧
    ((∃ r, calculate_lead_time sampleWF = .ok r) ∧
     (∃ r, calculate_deployment_frequency sampleWF = .ok r) ∧
     (∃ r, calculate_mttr sampleWF = .ok r) ∧
     (∃ r, calculate_change_failure_rate sampleWF = .ok r) ∧
     (∃ r, analyze_dora_metrics sampleWF "2024-05-01 12:00:00" = .ok r)) :=
  ⟨by decide, c3_amended_total_on_wf sampleWF "2024-05-01 12:00:00" (by decide)⟩


/-- C4 counterexample: on an input with no resolved dates the calculator returns the
sentinel `{frequency: "No data", deployments_per_week: 0}` WITHOUT the
`total_deployments` key (modelled as `Option.none`), contradicting C4's statement that
the sentinel still carries that field. -/
theorem c4_counterexample :
    calculate_deployment_frequency [] = .ok ⟨"No data", 0, Option.none⟩ := by
  with_unfolding_all rfl

/-- C4 amended: whenever the per-record traversal succeeds, the Deployment Frequency
calculator returns a result (never an error) that always carries `frequency` and
`deployments_per_week`; when no parseable resolved date exists it returns the sentinel
`frequency = "No data", deployments_per_week = 0`, but that sentinel omits
`total_deployments`; `total_deployments` is present exactly when at least one parseable
resolved date exists. -/
theorem c4_amended_sentinel (issues : List PyVal) (ds : List PyDate)
    (h : resolutionDates issues = .ok ds) :
    ∃ r, calculate_deployment_frequency issues = .ok r ∧
      (ds = [] → r = ⟨"No data", 0, Option.none⟩) ∧
      (ds ≠ [] → ∃ u, r.total_deployments = some u) := by
  unfold calculate_deployment_frequency
  rw [h, ok_bind]
  cases ds with
  | nil => exact ⟨_, rfl, fun _ => rfl, fun hne => absurd rfl hne⟩
  | cons d rest =>
    exact ⟨_, rfl, fun heq => absurd heq (List.cons_ne_nil d rest), fun _ => ⟨_, rfl⟩⟩

/-- Witness for the C4 amended theorem on the empty input. -/
theorem c4_amended_witness :
    resolutionDates ([] : List PyVal) = .ok [] ∧
    ∃ r, calculate_deployment_frequency ([] : List PyVal) = .ok r ∧
      (([] : List PyDate) = [] → r = ⟨"No data", 0, Option.none⟩) ∧
      (([] : List PyDate) ≠ [] → ∃ u, r.total_deployments = some u) :=
  ⟨rfl, c4_amended_sentinel [] [] rfl⟩

/-- C5: for every input whose traversal yields at least one parseable resolved
timestamp, `total_deployments` equals the number of distinct calendar dates among the
parseable resolved values (multiplicity within one day collapsed), and
`deployments_per_week = round(total_deployments / 90 * 7, 1)` with the window fixed at
90 days regardless of the actual span of the input. -/
theorem c5_deployment_frequency_formula (issues : List PyVal) (ds : List PyDate)
    (h : resolutionDates issues = .ok ds) (hne : ds ≠ []) :
    ∃ r, calculate_deployment_frequency issues = .ok r ∧
      r.total_deployments = some ds.toFinset.card ∧
      r.deployments_per_week = round1 ((ds.toFinset.card : ℚ) / 90 * 7) := by
  unfold calculate_deployment_frequency
  rw [h, ok_bind]
  cases ds with
  | nil => exact absurd rfl hne
  | cons d rest =>
    refine ⟨_, rfl, ?_, ?_⟩
    · rw [List.card_toFinset]
    · rw [List.card_toFinset]

/-- Witness for C5: three parseable resolutions over two distinct days. -/
theorem c5_witness :
    resolutionDates sampleDF = .ok dsDF ∧ dsDF ≠ [] ∧
    (∃ r, calculate_deployment_frequency sampleDF = .ok r ∧
      r.total_deployments = some dsDF.toFinset.card ∧
      r.deployments_per_week = round1 ((dsDF.toFinset.card : ℚ) / 90 * 7)) :=
  ⟨by with_unfolding_all rfl, by simp [dsDF],
   c5_deployment_frequency_formula sampleDF dsDF (by with_unfolding_all rfl)
     (by simp [dsDF])⟩

/-- C6: with N input records, B of them counted as Bugs and C of those B critical,
the Change Failure Rate calculator returns total_issues = N, bug_issues = B,
critical_bugs = C, failure_rate_percent = round(100·B/N, 1) and
critical_failure_rate_percent = round(100·C/N, 1), and when N = 0 both rate fields are 0
(the division is guarded and never raises). -/
theorem c6_change_failure_rate (issues bugs crits : List PyVal)
    (hb : filterExcept isBug issues = .ok bugs)
    (hc : filterExcept isCritical bugs = .ok crits) :
    calculate_change_failure_rate issues =
      .ok ⟨issues.length, bugs.length, crits.length,
        (if 0 < issues.length then
           round1 (100 * (bugs.length : ℚ) / (issues.length : ℚ)) else 0),
        (if 0 < issues.length then
           round1 (100 * (crits.length : ℚ) / (issues.length : ℚ)) else 0)⟩ := by
  unfold calculate_change_failure_rate
  rw [hb, ok_bind, hc, ok_bind]
  have h1 : round1 (if 0 < issues.length then
        (bugs.length : ℚ) / (issues.length : ℚ) * 100 else 0) =
      (if 0 < issues.length then
        round1 (100 * (bugs.length : ℚ) / (issues.length : ℚ)) else 0) := by
    split_ifs with hn
    · congr 1
      ring
    · exact round1_zero
  have h2 : (if 0 < issues.length then
        round1 ((crits.length : ℚ) / (issues.length : ℚ) * 100) else 0) =
      (if 0 < issues.length then
        round1 (100 * (crits.length : ℚ) / (issues.length : ℚ)) else 0) := by
    split_ifs with hn
    · congr 1
      ring
    · rfl
  simp only [pure_eq_ok, Except.ok.injEq, CFRRes.mk.injEq]
  exact ⟨trivial, trivial, trivial, h1, h2⟩

/-- Witness for C6: N = 10, B = 3 yields failure_rate_percent = 30.0. -/
theorem c6_witness :
    filterExcept isBug cfrTen = .ok [cfrBug, cfrBug, cfrBug] ∧
    filterExcept isCritical [cfrBug, cfrBug, cfrBug] = .ok [] ∧
    calculate_change_failure_rate cfrTen = .ok ⟨10, 3, 0, 30, 0⟩ := by
  refine ⟨by with_unfolding_all rfl, by with_unfolding_all rfl, ?_⟩
  have h := c6_change_failure_rate cfrTen [cfrBug, cfrBug, cfrBug] []
    (by with_unfolding_all rfl) (by with_unfolding_all rfl)
  rw [h]
  with_unfolding_all rfl


/-- C7 counterexample: `classify("velocity", 1) = "Unknown"`, outside the claimed set
{Elite, High, Medium, Low}; and `classify("deployments_per_week", 0.5) = "Elite"`
although the first threshold in ASCENDING order satisfied by 0.5 under `value ≤
threshold` is High's threshold 1 (0.5 > Medium's 0.2) — the code tests the table in the
fixed order Elite, High, Medium, which is descending for deployments_per_week. -/
theorem c7_counterexample :
    get_performance_level "velocity" 1 = "Unknown" ∧
    get_performance_level "deployments_per_week" (1/2) = "Elite" :=
  ⟨by with_unfolding_all rfl, by with_unfolding_all rfl⟩

/-- C7 amended: for each of the four metric names in the benchmark table, classify
returns a tier in {Elite, High, Medium, Low}, chosen by testing thresholds in the fixed
order Elite, High, Medium under `value ≤ threshold` (ascending threshold order for
lead_time_days, mttr_hours and failure_rate, but descending for deployments_per_week),
with Low when no test passes; a metric name outside the table yields "Unknown". In
particular classify("lead_time_days", 1) = Elite, classify("lead_time_days", 1.01) =
High and classify("lead_time_days", 999) = Low. -/
theorem c7_amended_classifier :
    (∀ v : ℚ, get_performance_level "lead_time_days" v =
      if v ≤ 1 then "Elite" else if v ≤ 7 then "High"
      else if v ≤ 30 then "Medium" else "Low") ∧
    (∀ v : ℚ, get_performance_level "mttr_hours" v =
      if v ≤ 1 then "Elite" else if v ≤ 24 then "High"
      else if v ≤ 168 then "Medium" else "Low") ∧
    (∀ v : ℚ, get_performance_level "failure_rate" v =
      if v ≤ 5 then "Elite" else if v ≤ 15 then "High"
      else if v ≤ 30 then "Medium" else "Low") ∧
    (∀ v : ℚ, get_performance_level "deployments_per_week" v =
      if v ≤ 7 then "Elite" else if v ≤ 1 then "High"
      else if v ≤ 1/5 then "Medium" else "Low") ∧
    (∀ v : ℚ,
      get_performance_level "lead_time_days" v ∈ (["Elite", "High", "Medium", "Low"] : List String)) ∧
    (∀ v : ℚ,
      get_performance_level "mttr_hours" v ∈ (["Elite", "High", "Medium", "Low"] : List String)) ∧
    (∀ v : ℚ,
      get_performance_level "failure_rate" v ∈ (["Elite", "High", "Medium", "Low"] : List String)) ∧
    (∀ v : ℚ,
      get_performance_level "deployments_per_week" v ∈
        (["Elite", "High", "Medium", "Low"] : List String)) ∧
    get_performance_level "lead_time_days" 1 = "Elite" ∧
    get_performance_level "lead_time_days" (101/100) = "High" ∧
    get_performance_level "lead_time_days" 999 = "Low" := by
  have hlt : ∀ v : ℚ, get_performance_level "lead_time_days" v =
      if v ≤ 1 then "Elite" else if v ≤ 7 then "High"
      else if v ≤ 30 then "Medium" else "Low" := fun v => by with_unfolding_all rfl
  have hmt : ∀ v : ℚ, get_performance_level "mttr_hours" v =
      if v ≤ 1 then "Elite" else if v ≤ 24 then "High"
      else if v ≤ 168 then "Medium" else "Low" := fun v => by with_unfolding_all rfl
  have hfr : ∀ v : ℚ, get_performance_level "failure_rate" v =
      if v ≤ 5 then "Elite" else if v ≤ 15 then "High"
      else if v ≤ 30 then "Medium" else "Low" := fun v => by with_unfolding_all rfl
  have hdf : ∀ v : ℚ, get_performance_level "deployments_per_week" v =
      if v ≤ 7 then "Elite" else if v ≤ 1 then "High"
      else if v ≤ 1/5 then "Medium" else "Low" := fun v => by with_unfolding_all rfl
  refine ⟨hlt, hmt, hfr, hdf, ?_, ?_, ?_, ?_, ?_, ?_, ?_⟩
  · intro v
    rw [hlt v]
    split_ifs <;> simp
  · intro v
    rw [hmt v]
    split_ifs <;> simp
  · intro v
    rw [hfr v]
    split_ifs <;> simp
  · intro v
    rw [hdf v]
    split_ifs <;> simp
  · with_unfolding_all rfl
  · with_unfolding_all rfl
  · with_unfolding_all rfl

/-- C8: for every record sequence whose traversal yields a non-empty list of elapsed-day
values, the Lead Time result's average lies within [min, max], its average and median
are the rounded mean and the rounded true statistical median of the included elapsed-day
values ((resolved - created) seconds / 86400), and count is the population size. -/
theorem c8_lead_time_stats (issues : List PyVal) (ts : List ℚ)
    (h : elapsedTimes 86400 issues = .ok ts) (hne : ts ≠ []) :
    ∃ r, calculate_lead_time issues = .ok r ∧
      r.min ≤ r.average ∧ r.average ≤ r.max ∧
      r.average = round1 (mean ts) ∧
      r.median = round1 (median ts) ∧
      r.count = ts.length := by
  unfold calculate_lead_time
  rw [h, ok_bind]
  cases ts with
  | nil => exact absurd rfl hne
  | cons x xs =>
    refine ⟨_, rfl, ?_, ?_, rfl, rfl, rfl⟩
    · exact round1_mono (listMin_le_mean x xs)
    · exact round1_mono (mean_le_listMax x xs)

/-- Witness for C8 on two concrete records with 2 and 1 days of lead time. -/
theorem c8_witness :
    elapsedTimes 86400 sampleLT = .ok [2, 1] ∧ ([2, 1] : List ℚ) ≠ [] ∧
    (∃ r, calculate_lead_time sampleLT = .ok r ∧
      r.min ≤ r.average ∧ r.average ≤ r.max ∧
      r.average = round1 (mean [2, 1]) ∧
      r.median = round1 (median [2, 1]) ∧
      r.count = ([2, 1] : List ℚ).length) :=
  ⟨by with_unfolding_all rfl, by simp,
   c8_lead_time_stats sampleLT [2, 1] (by with_unfolding_all rfl) (by simp)⟩

/-- C9: the Aggregator is fully deterministic given identical input records: two runs
with different analysis timestamps yield identical results once the recorded
analysis_date field is erased. -/
theorem c9_aggregator_deterministic (issues : List PyVal) (t1 t2 : String) :
    (analyze_dora_metrics issues t1).map (Option.map stripTimestamp) =
    (analyze_dora_metrics issues t2).map (Option.map stripTimestamp) := by
  unfold analyze_dora_metrics
  by_cases he : issues.isEmpty = true
  · rw [if_pos he, if_pos he]
  · rw [if_neg he, if_neg he]
    cases hlt : calculate_lead_time issues with
    | error e => rfl
    | ok lt =>
      rw [ok_bind, ok_bind]
      cases hdf : calculate_deployment_frequency issues with
      | error e => rfl
      | ok df =>
        rw [ok_bind, ok_bind]
        cases hmt : calculate_mttr issues with
        | error e => rfl
        | ok mt =>
          rw [ok_bind, ok_bind]
          cases hfr : calculate_change_failure_rate issues with
          | error e => rfl
          | ok fr =>
            rw [ok_bind, ok_bind]
            rfl

/-- C10: on records that carry their created, resolutiondate, issuetype and priority
data only nested under the `fields` key (no top-level copies), the DORAMetrics and
DORAMetricsIntegrated variants return equal results for all four metric calculators. -/
theorem c10_variants_agree (issues : List PyVal)
    (h : ∀ i ∈ issues, noTopLevelFields i = true) :
    calculate_lead_time issues = Integrated.calculate_lead_time issues ∧
    calculate_deployment_frequency issues = Integrated.calculate_deployment_frequency issues ∧
    calculate_mttr issues = Integrated.calculate_mttr issues ∧
    calculate_change_failure_rate issues = Integrated.calculate_change_failure_rate issues :=
  ⟨calculate_lead_time_eq_integrated issues h,
   calculate_deployment_frequency_eq_integrated issues h,
   calculate_mttr_eq_integrated issues h,
   calculate_change_failure_rate_eq_integrated issues h⟩

/-- Witness for C10 on a concrete nested-shape record. -/
theorem c10_witness :
    (∀ i ∈ sampleNested, noTopLevelFields i = true) ∧
    (calculate_lead_time sampleNested = Integrated.calculate_lead_time sampleNested ∧
     calculate_deployment_frequency sampleNested =
       Integrated.calculate_deployment_frequency sampleNested ∧
     calculate_mttr sampleNested = Integrated.calculate_mttr sampleNested ∧
     calculate_change_failure_rate sampleNested =
       Integrated.calculate_change_failure_rate sampleNested) :=
  ⟨by decide, c10_variants_agree sampleNested (by decide)⟩

end DORA
